import Mathlib

/-!
Shallow embedding of the PayLap fitness relay server (`src/server.js`,
persistent-session variant).

The server keeps three module-level mutable variables:
`isConnected` (set by the device connected/disconnected handlers),
`relayBusy` (the single-flight command gate), and `autoLockTimer`
(the handle of the armed auto-lock `setTimeout`, `null` when none is
armed).  `triggerRelay(action)` is the single entry point for the
`unlock` / `lock` / `status` endpoints; the auto-lock timer callback
issues a lock command and clears the gate in a `finally` block.

We model the mutable variables as a state record `St`, the physical
relay contact (Tuya dps "1") as `deviceOn`, the outcome of each
`await device.set`/`device.get` as an explicit `deviceOk : Bool`
parameter, and the commands actually sent to the device session as an
output trace `List DevCmd`.  Requests, timer firings and connection
events are serialized into an event list (the JS event loop runs each
to completion before the next).
-/

namespace PayLap

/-- Actions accepted by `triggerRelay` in `server.js`. -/
inductive Action where
  | unlock
  | lock
  | status
deriving DecidableEq, Repr

/-- The error taxonomy of the gate, one constructor per `throw` site of
`triggerRelay`: offline rejection ("Relay is offline. Please wait for
reconnection."), busy rejection ("Relay is busy processing another
request."), and a device-session error re-thrown by the `catch` block. -/
inductive RelayError where
  | relayOffline
  | relayBusy
  | relayCommandFailed
deriving DecidableEq, Repr

/-- A command sent to the device session: `device.set({dps: 1, set: on})`
or `device.get()`. -/
inductive DevCmd where
  | set (turnOn : Bool)
  | get
deriving DecidableEq, Repr

/-- The module-level mutable state of `server.js` plus the physical
relay contact `deviceOn` (dps "1", `true` = door unlocked).
`autoLockTimer` records whether an armed (not yet cancelled, not yet
fired) auto-lock timeout exists; `clearTimeout` disarms it. -/
structure St where
  isConnected : Bool
  relayBusy : Bool
  autoLockTimer : Bool
  deviceOn : Bool
deriving DecidableEq, Repr

/-- The JSON body returned by a successful `triggerRelay` call:
`{success, state, duration?, online?}`. -/
structure TriggerResult where
  success : Bool
  state : String
  duration : Option Nat
  online : Option Bool
deriving DecidableEq, Repr

instance {ε α : Type} [DecidableEq ε] [DecidableEq α] : DecidableEq (Except ε α) := fun a b =>
  match a, b with
  | .error x, .error y =>
      if h : x = y then isTrue (by rw [h]) else isFalse (fun hc => h (Except.error.inj hc))
  | .error _, .ok _ => isFalse (fun hc => Except.noConfusion hc)
  | .ok _, .error _ => isFalse (fun hc => Except.noConfusion hc)
  | .ok x, .ok y =>
      if h : x = y then isTrue (by rw [h]) else isFalse (fun hc => h (Except.ok.inj hc))

/-- Output of one `triggerRelay` call: the result (or thrown error), the
post-state of the mutable variables and device, and the trace of
commands sent to the device session. -/
structure TrigOut where
  result : Except RelayError TriggerResult
  state : St
  trace : List DevCmd
deriving DecidableEq, Repr

/-- The default of `DOOR_UNLOCK_DURATION` in `server.js`
(`parseInt(process.env.DOOR_UNLOCK_DURATION) || 3000`). -/
def defaultDuration : Nat := 3000

/-- Embedding of `triggerRelay(action)` from `src/server.js` lines
87-144.  `dur` is the configured `DOOR_UNLOCK_DURATION`; `deviceOk`
tells whether the awaited device command resolves or rejects.

Mirrors the source line by line: reject when `!isConnected`; reject when
`relayBusy`; for `unlock` set `relayBusy = true`, `clearTimeout` any
armed timer, `await device.set({dps:1,set:true})`, then arm the
auto-lock timer and return `{success, 'unlocked', duration}`; for
`lock` `clearTimeout`, `await device.set({dps:1,set:false})`, clear
`relayBusy` and `autoLockTimer` and return `{success, 'locked'}`; for
`status` `await device.get()` and report dps "1" and `isConnected`.
The `catch` block sets `relayBusy = false` and re-throws. -/
def triggerRelay (dur : Nat) (action : Action) (deviceOk : Bool) (s : St) : TrigOut :=
  if s.isConnected = false then
    { result := .error .relayOffline, state := s, trace := [] }
  else if s.relayBusy then
    { result := .error .relayBusy, state := s, trace := [] }
  else
    match action with
    | .unlock =>
        let s1 : St := { s with relayBusy := true }
        let s2 : St := { s1 with autoLockTimer := false }
        if deviceOk then
          let s3 : St := { s2 with deviceOn := true, autoLockTimer := true }
          { result := .ok { success := true, state := "unlocked",
                            duration := some dur, online := none },
            state := s3, trace := [.set true] }
        else
          { result := .error .relayCommandFailed,
            state := { s2 with relayBusy := false }, trace := [.set true] }
    | .lock =>
        let s1 : St := { s with autoLockTimer := false }
        if deviceOk then
          let s2 : St := { s1 with deviceOn := false, relayBusy := false }
          { result := .ok { success := true, state := "locked",
                            duration := none, online := none },
            state := s2, trace := [.set false] }
        else
          { result := .error .relayCommandFailed,
            state := { s1 with relayBusy := false }, trace := [.set false] }
    | .status =>
        if deviceOk then
          { result := .ok { success := true,
                            state := if s.deviceOn then "unlocked" else "locked",
                            duration := none, online := some s.isConnected },
            state := s, trace := [.get] }
        else
          { result := .error .relayCommandFailed,
            state := { s with relayBusy := false }, trace := [.get] }

/-- Output of the auto-lock timer callback: post-state and device trace
(the callback surfaces no error to any caller). -/
structure FireOut where
  state : St
  trace : List DevCmd
deriving DecidableEq, Repr

/-- Embedding of the auto-lock timer callback (`server.js` lines
107-117): `await device.set({dps:1,set:false})`; on rejection the error
is only logged; the `finally` block sets `relayBusy = false` and
`autoLockTimer = null` in both cases. -/
def autoLockFire (deviceOk : Bool) (s : St) : FireOut :=
  if deviceOk then
    { state := { s with deviceOn := false, relayBusy := false, autoLockTimer := false },
      trace := [.set false] }
  else
    { state := { s with relayBusy := false, autoLockTimer := false },
      trace := [.set false] }

/-- The asynchronous triggers funneled through the event loop: an HTTP
request hitting `triggerRelay`, the armed auto-lock timeout firing, and
the device connected/disconnected events. -/
inductive Ev where
  | req (a : Action) (deviceOk : Bool)
  | fire (deviceOk : Bool)
  | connUp
  | connDown
deriving DecidableEq, Repr

/-- One event-loop turn.  A `fire` event is only effective when an armed
auto-lock timeout exists (a cancelled timeout never runs its callback). -/
def step (dur : Nat) (e : Ev) (s : St) : St :=
  match e with
  | .req a ok => (triggerRelay dur a ok s).state
  | .fire ok => if s.autoLockTimer then (autoLockFire ok s).state else s
  | .connUp => { s with isConnected := true }
  | .connDown => { s with isConnected := false }

/-- Run a sequence of events from a state. -/
def run (dur : Nat) (es : List Ev) (s : St) : St :=
  es.foldl (fun t e => step dur e t) s

/-- Initial state of `server.js`: not connected, gate idle, no timer
armed; the physical contact starts in an unknown position `d`. -/
def initSt (d : Bool) : St :=
  { isConnected := false, relayBusy := false, autoLockTimer := false, deviceOn := d }

/-!
Connection supervisor (`server.js` lines 52-82): `connectToRelay`
attempts `device.find(); device.connect()` and on failure schedules
itself again with `setTimeout(connectToRelay, 5000)`; the `connected`
handler sets `isConnected = true`; the `disconnected` handler sets
`isConnected = false` and schedules `connectToRelay` in 5000 ms; the
`error` handler schedules a reconnect only when not connected.
-/

/-- The fixed reconnect delay of `setTimeout(connectToRelay, 5000)`. -/
def retryDelayMs : Nat := 5000

/-- Connection-supervisor state: the `isConnected` flag, whether a
`connectToRelay` call is currently scheduled via `setTimeout`, and the
delay it was scheduled with. -/
structure ConnSt where
  isConnected : Bool
  retryScheduled : Bool
  retryDelay : Nat
deriving DecidableEq, Repr

/-- One run of `connectToRelay` (consuming its pending `setTimeout` if
any): on success the device emits `connected`, setting
`isConnected = true`; on failure a retry is scheduled after
`retryDelayMs` and `isConnected` is untouched. -/
def connectToRelay (ok : Bool) (s : ConnSt) : ConnSt :=
  let s0 : ConnSt := { s with retryScheduled := false }
  if ok then { s0 with isConnected := true }
  else { s0 with retryScheduled := true, retryDelay := retryDelayMs }

/-- The `device.on('connected')` handler. -/
def onConnectedHandler (s : ConnSt) : ConnSt :=
  { s with isConnected := true }

/-- The `device.on('disconnected')` handler: goes offline and schedules
`connectToRelay` after `retryDelayMs`. -/
def onDisconnectedHandler (s : ConnSt) : ConnSt :=
  { s with isConnected := false, retryScheduled := true, retryDelay := retryDelayMs }

/-- The `device.on('error')` handler: schedules a reconnect only when
currently disconnected. -/
def onErrorHandler (s : ConnSt) : ConnSt :=
  if s.isConnected then s
  else { s with retryScheduled := true, retryDelay := retryDelayMs }

/-- `n` consecutive failing `connectToRelay` attempts, each one the
firing of the `setTimeout` scheduled by the previous failure. -/
def retryFailLoop : Nat → ConnSt → ConnSt
  | 0, s => s
  | n + 1, s => retryFailLoop n (connectToRelay false s)

/-!
`PUT /config` handler (`server.js` lines 201-259): the request body may
carry `device_id`, `local_key`, `local_ip`; each present field is
validated (`device_id`/`local_key` must be non-empty strings after
trim; `local_ip` must match `^(\d{1,3}\.){3}\d{1,3}$` with every octet
at most 255); any validation error is answered with HTTP 400 before the
in-memory `config` object is touched or `config.json` rewritten, as is
a body carrying none of the three fields.
-/

/-- A JSON value as far as the handler's checks can distinguish it:
`typeof v === 'string'` and JavaScript truthiness are all it inspects. -/
inductive JsVal where
  | jstr (s : String)
  | jnum (n : Int)
  | jbool (b : Bool)
  | jnull
deriving DecidableEq, Repr

/-- JavaScript truthiness of a defined value. -/
def JsVal.truthy : JsVal → Bool
  | .jstr s => !s.isEmpty
  | .jnum n => n != 0
  | .jbool b => b
  | .jnull => false

/-- Truthiness of a possibly-undefined field (`undefined` is falsy). -/
def truthyOpt : Option JsVal → Bool
  | none => false
  | some v => v.truthy

/-- The destructured request body
`const { device_id, local_key, local_ip } = req.body` (`none` =
the field is `undefined`). -/
structure ConfigBody where
  device_id : Option JsVal
  local_key : Option JsVal
  local_ip : Option JsVal
deriving DecidableEq, Repr

/-- The persisted relay configuration (`config.json`). -/
structure Config where
  device_id : String
  local_key : String
  local_ip : String
deriving DecidableEq, Repr

/-- `typeof v === 'string' && v.trim().length > 0`, the check applied to
`device_id` and `local_key`. -/
def isNonEmptyStr : JsVal → Bool
  | .jstr s => !s.trim.isEmpty
  | _ => false

/-- Split a character list at every `'.'`, keeping empty groups — the
behavior of `local_ip.split('.')`. -/
def splitDots : List Char → List (List Char)
  | [] => [[]]
  | c :: cs =>
      if c = '.' then [] :: splitDots cs
      else
        match splitDots cs with
        | [] => [[c]]
        | g :: gs => (c :: g) :: gs

/-- The test of the regex `^(\d{1,3}\.){3}\d{1,3}$`: exactly four
dot-separated groups of one to three ASCII digits. -/
def ipRegexTest (s : String) : Bool :=
  let parts := splitDots s.toList
  parts.length == 4 &&
    parts.all (fun p => 1 ≤ p.length && p.length ≤ 3 && p.all Char.isDigit)

/-- `parseInt` on an all-digit octet group. -/
def digitsVal (l : List Char) : Nat :=
  l.foldl (fun acc c => acc * 10 + (c.toNat - 48)) 0

/-- `octets.some(octet => parseInt(octet) > 255)` on the groups of a
string that passed the regex. -/
def hasBigOctet (s : String) : Bool :=
  (splitDots s.toList).any (fun p => digitsVal p > 255)

/-- The `errors` array accumulated by the handler's validation section,
in source order. -/
def validationErrors (b : ConfigBody) : List String :=
  (match b.device_id with
   | none => []
   | some v =>
       if isNonEmptyStr v then [] else ["device_id must be a non-empty string"]) ++
  (match b.local_key with
   | none => []
   | some v =>
       if isNonEmptyStr v then [] else ["local_key must be a non-empty string"]) ++
  (match b.local_ip with
   | none => []
   | some v =>
       match v with
       | .jstr s =>
           if ipRegexTest s then
             if hasBigOctet s then ["local_ip octets must be between 0 and 255"] else []
           else ["local_ip must be a valid IP address (e.g., 192.168.0.127)"]
       | _ => ["local_ip must be a valid IP address (e.g., 192.168.0.127)"])

/-- Outcome of the `PUT /config` handler: HTTP status, the in-memory
`config` object afterwards, and the content written to `config.json`
(`none` when the file is not touched). -/
structure PutConfigOut where
  status : Nat
  config : Config
  fileWrite : Option Config
deriving DecidableEq, Repr

/-- `v.trim()` on a field the success path assigns from (the path only
runs it on truthy validated strings). -/
def jsTrim : Option JsVal → String
  | some (.jstr s) => s.trim
  | _ => ""

/-- Embedding of the `PUT /config` handler body: return 400 with the
validation errors when any; return 400 when no field is truthy; else
overwrite each truthy field with its trimmed value, write the new
config to `config.json`, and answer 200. -/
def putConfig (b : ConfigBody) (cfg : Config) : PutConfigOut :=
  let errors := validationErrors b
  if errors.length > 0 then
    { status := 400, config := cfg, fileWrite := none }
  else if !truthyOpt b.device_id && !truthyOpt b.local_key && !truthyOpt b.local_ip then
    { status := 400, config := cfg, fileWrite := none }
  else
    let c1 := if truthyOpt b.device_id then { cfg with device_id := jsTrim b.device_id } else cfg
    let c2 := if truthyOpt b.local_key then { c1 with local_key := jsTrim b.local_key } else c1
    let c3 := if truthyOpt b.local_ip then { c2 with local_ip := jsTrim b.local_ip } else c2
    { status := 200, config := c3, fileWrite := some c3 }

/-! Theorems. -/

theorem run_nil (dur : Nat) (s : St) : run dur [] s = s := rfl

theorem run_cons (dur : Nat) (e : Ev) (es : List Ev) (s : St) :
    run dur (e :: es) s = run dur es (step dur e s) := rfl

/-- The gate/timer coupling is preserved by every single event. -/
theorem step_busy_eq_timer (dur : Nat) (e : Ev) (s : St)
    (h : s.relayBusy = s.autoLockTimer) :
    (step dur e s).relayBusy = (step dur e s).autoLockTimer := by
  obtain ⟨c, b, t, d⟩ := s
  simp only at h
  subst h
  cases e with
  | req a ok => cases a <;> cases ok <;> cases c <;> cases b <;>
      simp [step, triggerRelay]
  | fire ok => cases ok <;> cases b <;> simp [step, autoLockFire]
  | connUp => simp [step]
  | connDown => simp [step]

/-- The gate/timer coupling is preserved by every event sequence. -/
theorem run_busy_eq_timer (dur : Nat) (es : List Ev) (s : St)
    (h : s.relayBusy = s.autoLockTimer) :
    (run dur es s).relayBusy = (run dur es s).autoLockTimer := by
  induction es generalizing s with
  | nil => exact h
  | cons e es ih => exact ih (step dur e s) (step_busy_eq_timer dur e s h)

/-- When the gate/timer coupling holds, one timer firing (or the absence
of an armed timer) leaves the gate idle. -/
theorem fire_clears_busy (dur : Nat) (ok : Bool) (s : St)
    (h : s.relayBusy = s.autoLockTimer) :
    (step dur (.fire ok) s).relayBusy = false := by
  obtain ⟨c, b, t, d⟩ := s
  simp only at h
  subst h
  cases b <;> cases ok <;> simp [step, autoLockFire]

/-- Claim C3: in every state reachable by a sequence of executed
requests, timer firings and connection events, `relayBusy` holds
exactly when an armed auto-lock timer exists (the spec's "outstanding
mutating command or armed PendingAutoLock"), and a firing of that
timer always leaves the gate idle, so the gate is never permanently
Busy. -/
theorem busy_iff_armed_autolock (dur : Nat) (es : List Ev) (d : Bool) (ok : Bool) :
    (run dur es (initSt d)).relayBusy = (run dur es (initSt d)).autoLockTimer ∧
    (step dur (.fire ok) (run dur es (initSt d))).relayBusy = false := by
  have h := run_busy_eq_timer dur es (initSt d) rfl
  exact ⟨h, fire_clears_busy dur ok _ h⟩

/-- Claim C4: while offline, both mutating actions are rejected with the
offline error, no command reaches the device session, and the state is
untouched. -/
theorem offline_rejects_mutating (dur : Nat) (ok : Bool) (s : St)
    (hoff : s.isConnected = false) :
    triggerRelay dur .unlock ok s =
      { result := .error .relayOffline, state := s, trace := [] } ∧
    triggerRelay dur .lock ok s =
      { result := .error .relayOffline, state := s, trace := [] } := by
  constructor <;> simp [triggerRelay, hoff]

/-- Witness for C4: a concrete offline state rejects Unlock and Lock. -/
theorem offline_rejects_mutating_witness :
    triggerRelay 3000 .unlock true (initSt false) =
      { result := .error .relayOffline, state := initSt false, trace := [] } ∧
    triggerRelay 3000 .lock true (initSt false) =
      { result := .error .relayOffline, state := initSt false, trace := [] } :=
  offline_rejects_mutating 3000 true (initSt false) rfl

/-- Claim C5: while online with the gate already Busy, Unlock is
rejected with the busy error, no command reaches the device session,
and the state (gate and pending auto-lock included) is untouched. -/
theorem unlock_busy_rejected (dur : Nat) (ok : Bool) (s : St)
    (hon : s.isConnected = true) (hb : s.relayBusy = true) :
    triggerRelay dur .unlock ok s =
      { result := .error .relayBusy, state := s, trace := [] } := by
  simp [triggerRelay, hon, hb]

/-- Witness for C5: a concrete online busy state rejects Unlock. -/
theorem unlock_busy_rejected_witness :
    triggerRelay 3000 .unlock true
        { isConnected := true, relayBusy := true, autoLockTimer := true, deviceOn := true } =
      { result := .error .relayBusy,
        state := { isConnected := true, relayBusy := true, autoLockTimer := true, deviceOn := true },
        trace := [] } :=
  unlock_busy_rejected 3000 true _ rfl rfl

/-- A reachable online state with the gate Busy and an armed auto-lock
timer: go online, then a successful Unlock. -/
def busyArmedSt : St :=
  run defaultDuration [.connUp, .req .unlock true] (initSt false)

/-- Claim C1 counterexample: in the reachable online state that is Busy
with an armed auto-lock timer, a manual Lock does not succeed — it is
rejected with the busy error, no lock command is issued, and the armed
timer is left in place. -/
theorem lock_while_busy_rejected_cex :
    busyArmedSt.isConnected = true ∧ busyArmedSt.relayBusy = true ∧
    busyArmedSt.autoLockTimer = true ∧
    (triggerRelay defaultDuration .lock true busyArmedSt).result = .error .relayBusy ∧
    (triggerRelay defaultDuration .lock true busyArmedSt).state = busyArmedSt ∧
    (triggerRelay defaultDuration .lock true busyArmedSt).trace = [] := by
  decide

/-- Claim C1 (amended): while online with the gate Idle, a manual Lock
cancels any pending auto-lock timer (which cannot fire afterwards),
issues the lock command to the device session, clears Busy, and
returns success; while online with the gate Busy (including an armed
auto-lock window), the manual Lock is rejected with the busy error, no
command is issued, and the state — armed timer included — is
untouched. -/
theorem manual_lock_behavior (dur : Nat) (s : St) (hon : s.isConnected = true) :
    (s.relayBusy = false →
      triggerRelay dur .lock true s =
        { result := .ok { success := true, state := "locked", duration := none, online := none },
          state := { s with deviceOn := false, relayBusy := false, autoLockTimer := false },
          trace := [.set false] } ∧
      ∀ ok, step dur (.fire ok) (triggerRelay dur .lock true s).state =
        (triggerRelay dur .lock true s).state) ∧
    (s.relayBusy = true →
      triggerRelay dur .lock true s =
        { result := .error .relayBusy, state := s, trace := [] }) := by
  constructor
  · intro hidle
    constructor
    · simp [triggerRelay, hon, hidle]
    · intro ok
      simp [triggerRelay, hon, hidle, step]
  · intro hb
    simp [triggerRelay, hon, hb]

/-- Witness for the amended C1: a concrete online Idle state with an
armed timer; Lock succeeds, clears everything, and the fired timer is a
no-op afterwards. -/
theorem manual_lock_behavior_witness :
    triggerRelay 3000 .lock true
        { isConnected := true, relayBusy := false, autoLockTimer := true, deviceOn := true } =
      { result := .ok { success := true, state := "locked", duration := none, online := none },
        state := { isConnected := true, relayBusy := false, autoLockTimer := false, deviceOn := false },
        trace := [.set false] } :=
  ((manual_lock_behavior 3000 _ rfl).1 rfl).1

/-- Claim C2 counterexample: in the reachable online state that is Busy
with an armed auto-lock timer, a Status request is rejected with the
busy error (the `relayBusy` guard of `triggerRelay` runs before the
action dispatch, for Status too). -/
theorem status_while_busy_rejected_cex :
    busyArmedSt.isConnected = true ∧ busyArmedSt.relayBusy = true ∧
    (triggerRelay defaultDuration .status true busyArmedSt).result = .error .relayBusy ∧
    (triggerRelay defaultDuration .status true busyArmedSt).trace = [] := by
  decide

/-- Claim C2 (amended): while online with the gate Idle, Status does not
modify the gate state or the pending auto-lock and returns the current
device door state together with the online flag; while online with the
gate Busy, Status is rejected with the busy error and the state is
untouched. -/
theorem status_behavior (dur : Nat) (ok : Bool) (s : St) (hon : s.isConnected = true) :
    (s.relayBusy = false →
      triggerRelay dur .status true s =
        { result := .ok { success := true,
                          state := if s.deviceOn then "unlocked" else "locked",
                          duration := none, online := some true },
          state := s, trace := [.get] }) ∧
    (s.relayBusy = true →
      triggerRelay dur .status ok s =
        { result := .error .relayBusy, state := s, trace := [] }) := by
  constructor
  · intro hidle
    simp [triggerRelay, hon, hidle]
  · intro hb
    simp [triggerRelay, hon, hb]

/-- Witness for the amended C2: a concrete online Idle state with the
contact closed; Status reports locked and online without touching the
state. -/
theorem status_behavior_witness :
    triggerRelay 3000 .status true
        { isConnected := true, relayBusy := false, autoLockTimer := false, deviceOn := false } =
      { result := .ok { success := true, state := "locked", duration := none, online := some true },
        state := { isConnected := true, relayBusy := false, autoLockTimer := false, deviceOn := false },
        trace := [.get] } :=
  (status_behavior 3000 true _ rfl).1 rfl

/-- Claim C6: while online with the gate Idle, a successful Unlock
issues exactly the unlock command, leaves the gate Busy with exactly
one armed auto-lock timer, and returns success carrying the configured
duration; from that state every further request or connection event
keeps the gate Busy, and only a firing of the auto-lock timer clears
it. -/
theorem unlock_success_behavior (dur : Nat) (s : St) (hon : s.isConnected = true)
    (hidle : s.relayBusy = false) :
    triggerRelay dur .unlock true s =
      { result := .ok { success := true, state := "unlocked", duration := some dur, online := none },
        state := { s with relayBusy := true, autoLockTimer := true, deviceOn := true },
        trace := [.set true] } ∧
    (∀ a ok, (step dur (.req a ok) (triggerRelay dur .unlock true s).state).relayBusy = true) ∧
    (step dur .connUp (triggerRelay dur .unlock true s).state).relayBusy = true ∧
    (step dur .connDown (triggerRelay dur .unlock true s).state).relayBusy = true ∧
    (∀ ok, (step dur (.fire ok) (triggerRelay dur .unlock true s).state).relayBusy = false) := by
  have hmain : triggerRelay dur .unlock true s =
      { result := .ok { success := true, state := "unlocked", duration := some dur, online := none },
        state := { s with relayBusy := true, autoLockTimer := true, deviceOn := true },
        trace := [.set true] } := by
    simp [triggerRelay, hon, hidle]
  refine ⟨hmain, ?_, ?_, ?_, ?_⟩
  · intro a ok
    rw [hmain]
    cases a <;> cases ok <;> simp [step, triggerRelay, hon]
  · rw [hmain]; simp [step]
  · rw [hmain]; simp [step]
  · intro ok
    rw [hmain]
    cases ok <;> simp [step, autoLockFire]

/-- Witness for C6: Unlock from the concrete just-connected Idle state,
with the default 3000 ms duration. -/
theorem unlock_success_behavior_witness :
    triggerRelay 3000 .unlock true
        { isConnected := true, relayBusy := false, autoLockTimer := false, deviceOn := false } =
      { result := .ok { success := true, state := "unlocked", duration := some 3000, online := none },
        state := { isConnected := true, relayBusy := true, autoLockTimer := true, deviceOn := true },
        trace := [.set true] } :=
  (unlock_success_behavior 3000 _ rfl rfl).1

/-- Claim C7: when the armed auto-lock timer fires, its callback issues
the lock command to the device session, and whether that command
succeeds or fails, the gate is left Idle and the timer removed; a
failed auto-relock only skips the contact change (it is merely logged)
and never leaves the gate stuck Busy. -/
theorem autolock_fire_behavior (dur : Nat) (ok : Bool) (s : St)
    (harmed : s.autoLockTimer = true) :
    step dur (.fire ok) s = (autoLockFire ok s).state ∧
    (autoLockFire ok s).trace = [.set false] ∧
    (autoLockFire ok s).state.relayBusy = false ∧
    (autoLockFire ok s).state.autoLockTimer = false ∧
    (ok = true → (autoLockFire ok s).state.deviceOn = false) ∧
    (ok = false → (autoLockFire ok s).state.deviceOn = s.deviceOn) := by
  cases ok <;> simp [step, autoLockFire, harmed]

/-- Witness for C7: the timer fires in the concrete Busy armed state;
even with a failing device command the gate ends Idle. -/
theorem autolock_fire_behavior_witness :
    step 3000 (.fire false)
        { isConnected := true, relayBusy := true, autoLockTimer := true, deviceOn := true } =
      { isConnected := true, relayBusy := false, autoLockTimer := false, deviceOn := true } :=
  ((autolock_fire_behavior 3000 false _ rfl).1).trans rfl

/-- Claim C8: when the device command of an executed Unlock or Lock
fails, the error is propagated to the caller as the command-failure
error and the gate is left Idle — a failed command never leaves the
gate Busy. -/
theorem command_failure_clears_busy (dur : Nat) (s : St) (hon : s.isConnected = true)
    (hidle : s.relayBusy = false) :
    ((triggerRelay dur .unlock false s).result = .error .relayCommandFailed ∧
     (triggerRelay dur .unlock false s).state.relayBusy = false) ∧
    ((triggerRelay dur .lock false s).result = .error .relayCommandFailed ∧
     (triggerRelay dur .lock false s).state.relayBusy = false) := by
  constructor <;> constructor <;> simp [triggerRelay, hon, hidle]

/-- Witness for C8: both failures at a concrete online Idle state. -/
theorem command_failure_clears_busy_witness :
    (triggerRelay 3000 .unlock false
        { isConnected := true, relayBusy := false, autoLockTimer := false, deviceOn := true }).result =
      .error .relayCommandFailed ∧
    (triggerRelay 3000 .lock false
        { isConnected := true, relayBusy := false, autoLockTimer := false, deviceOn := true }).result =
      .error .relayCommandFailed :=
  ⟨(command_failure_clears_busy 3000 _ rfl rfl).1.1,
   (command_failure_clears_busy 3000 _ rfl rfl).2.1⟩

/-- Offline, retry-scheduled, fixed-delay: the shape every state of the
reconnect loop keeps while connection attempts keep failing. -/
def DisconnectedRetrying (s : ConnSt) : Prop :=
  s.isConnected = false ∧ s.retryScheduled = true ∧ s.retryDelay = retryDelayMs

theorem connectToRelay_fail_retrying (s : ConnSt) (h : s.isConnected = false) :
    DisconnectedRetrying (connectToRelay false s) := by
  simp [DisconnectedRetrying, connectToRelay, h]

theorem retryFailLoop_retrying (n : Nat) (s : ConnSt) (h : DisconnectedRetrying s) :
    DisconnectedRetrying (retryFailLoop n s) := by
  induction n generalizing s with
  | zero => exact h
  | succ n ih => exact ih (connectToRelay false s) (connectToRelay_fail_retrying s h.1)

/-- Claim C9: an unexpected disconnect transitions the supervisor to
Disconnected and schedules a retry after the fixed 5000 ms delay; any
number of further connection failures keeps it offline with the next
retry scheduled at the same fixed delay (no retry-count cap), until a
successful attempt goes online again; and while offline, request
callers observe only the offline rejection, never the connection
failure itself. -/
theorem reconnect_loop_behavior (s : ConnSt) (n : Nat) :
    DisconnectedRetrying (onDisconnectedHandler s) ∧
    DisconnectedRetrying (retryFailLoop n (onDisconnectedHandler s)) ∧
    (connectToRelay true (retryFailLoop n (onDisconnectedHandler s))).isConnected = true ∧
    (∀ (dur : Nat) (a : Action) (ok : Bool) (t : St),
      (triggerRelay dur a ok { t with isConnected := false }).result =
        .error .relayOffline) := by
  have h0 : DisconnectedRetrying (onDisconnectedHandler s) := by
    simp [DisconnectedRetrying, onDisconnectedHandler]
  have h1 := retryFailLoop_retrying n (onDisconnectedHandler s) h0
  refine ⟨h0, h1, ?_, ?_⟩
  · simp [connectToRelay]
  · intro dur a ok t
    simp [triggerRelay]

/-- Claim C10: a configuration update carrying any invalid supplied
field, or carrying none of the three fields, is answered with HTTP 400
while the in-memory configuration and the configuration file are left
untouched. -/
theorem putConfig_invalid_rejected (b : ConfigBody) (cfg : Config)
    (h : validationErrors b ≠ [] ∨
      (b.device_id = none ∧ b.local_key = none ∧ b.local_ip = none)) :
    (putConfig b cfg).status = 400 ∧ (putConfig b cfg).config = cfg ∧
    (putConfig b cfg).fileWrite = none := by
  rcases h with herr | ⟨hd, hk, hi⟩
  · have hlen : (validationErrors b).length > 0 := by
      cases hv : validationErrors b with
      | nil => exact absurd hv herr
      | cons x xs => simp
    simp [putConfig, hlen]
  · have hv : validationErrors b = [] := by
      simp [validationErrors, hd, hk, hi]
    simp [putConfig, hv, hd, hk, hi, truthyOpt]

/-- Witness for C10: a malformed `local_ip` (an out-of-range octet) at a
concrete configuration is rejected with 400 and changes nothing. -/
theorem putConfig_invalid_rejected_witness :
    (putConfig
        { device_id := none, local_key := none, local_ip := some (.jstr "192.168.0.999") }
        { device_id := "d76e48f1800c31b712cjgj", local_key := "k", local_ip := "192.168.0.127" }).status = 400 ∧
    (putConfig
        { device_id := none, local_key := none, local_ip := some (.jstr "192.168.0.999") }
        { device_id := "d76e48f1800c31b712cjgj", local_key := "k", local_ip := "192.168.0.127" }).config =
      { device_id := "d76e48f1800c31b712cjgj", local_key := "k", local_ip := "192.168.0.127" } ∧
    (putConfig
        { device_id := none, local_key := none, local_ip := some (.jstr "192.168.0.999") }
        { device_id := "d76e48f1800c31b712cjgj", local_key := "k", local_ip := "192.168.0.127" }).fileWrite = none :=
  putConfig_invalid_rejected _ _ (Or.inl (by decide))

end PayLap
